import Mathlib

/-!
Shallow embedding of the deer-flow research-workflow core
(src/graph/multi_agent_nodes.py, src/graph/nodes.py, src/graph/builder.py,
src/prompts/multi_agent_planner_model.py) and proofs of the specified
properties of the Complexity Assessor, Task Decomposer, Parallel
Coordinator, Result Compressor and Workflow Router.

Python-level conventions used throughout:
* Python strings are modelled as Lean `String`; `len`, slicing and
  `split` act on characters, as in Python 3.
* Python truthiness of an optional string / optional bool / list is made
  explicit by the `pyTruthy*` helpers below (`None`, `""` and `[]` are
  falsy).
* `needle in hay` on strings is `pyContains hay needle`.
* Machine floats only occur as the literal confidence scores `0.85` and
  `0.0`; no arithmetic is ever performed on them, so they are modelled
  exactly as rationals.
-/

namespace DeerFlow

/-- Sequence containment: true when `needle` occurs contiguously inside
`hay`. This is the semantics of the Python expression `needle in hay` on
strings (empty needle matches everything). -/
def containsSeq (needle : List Char) : List Char → Bool
  | [] => needle.isEmpty
  | c :: rest => needle.isPrefixOf (c :: rest) || containsSeq needle rest

/-- Python `needle in hay` for strings. -/
def pyContains (hay needle : String) : Bool :=
  containsSeq needle.data hay.data

/-- Python `str.lower()`. `Char.toLower` lowercases the ASCII range; the
lexicon entries below are already lowercase (including the Russian ones)
and every concrete query in a proof is ASCII, so this agrees with Python
on all inputs considered. -/
def pyLower (s : String) : String :=
  String.mk (s.data.map Char.toLower)

/-- Python `str.upper()` (ASCII range, as for `pyLower`). -/
def pyUpper (s : String) : String :=
  String.mk (s.data.map Char.toUpper)

/-- Python `s.startswith(p)`. -/
def pyStartsWith (s p : String) : Bool :=
  p.data.isPrefixOf s.data

/-- Splitter underlying Python `str.split`: cut at every character
satisfying `p`, keeping empty fields. -/
def splitCharsAux (p : Char → Bool) : List Char → List Char → List String
  | [], acc => [String.mk acc.reverse]
  | c :: rest, acc =>
    if p c then String.mk acc.reverse :: splitCharsAux p rest []
    else splitCharsAux p rest (c :: acc)

/-- Python `s.split('\n')`: split at each newline, keeping empty fields. -/
def pySplitNewline (s : String) : List String :=
  splitCharsAux (fun c => c == '\n') s.data []

/-- Python truthiness of an `Optional[str]`: `None` and `""` are falsy. -/
def pyTruthyOptStr : Option String → Bool
  | none => false
  | some s => !s.isEmpty

/-- Python truthiness of an `Optional[bool]`: `None` and `False` are falsy. -/
def pyTruthyOptBool : Option Bool → Bool
  | none => false
  | some b => b

/-- Python truthiness of an `Optional[list]`: `None` and `[]` are falsy. -/
def pyTruthyOptList {α : Type} : Option (List α) → Bool
  | none => false
  | some l => !l.isEmpty

/-- Python `str.split()` with no argument: split on whitespace and drop
empty fields (so whitespace runs yield no empty words). Used for the word
count in the complexity assessor. -/
def pySplitWS (s : String) : List String :=
  (splitCharsAux Char.isWhitespace s.data []).filter (fun w => !w.isEmpty)

/- ## Complexity Assessor (MultiAgentCoordinator._assess_query_complexity) -/

/-- Lexical complexity indicators, verbatim from
`_assess_query_complexity` in src/graph/multi_agent_nodes.py. -/
def complexityIndicators : List String :=
  ["analyze", "compare", "comprehensive", "detailed", "market", "industry",
   "анализ", "сравни", "всесторонний", "детальный", "рынок", "отрасль",
   "research", "investigate", "study", "evaluation", "assessment",
   "исследование", "изучение", "оценка", "влияние", "тенденции"]

/-- Lexical breadth indicators, verbatim from the source. -/
def breadthIndicators : List String :=
  ["impact", "trends", "future", "current state", "stakeholders",
   "влияние", "тенденции", "будущее", "текущее состояние", "участники",
   "ecosystem", "landscape", "overview", "multiple", "various",
   "экосистема", "ландшафт", "обзор", "множественный", "различные"]

/-- Lexical technical indicators, verbatim from the source. -/
def technicalIndicators : List String :=
  ["technical", "architecture", "implementation", "code", "system",
   "технический", "архитектура", "реализация", "код", "система"]

/-- Category test: `any(indicator in query.lower() for indicator in complexity_indicators)`. -/
def hasComplexityIndicator (query : String) : Bool :=
  complexityIndicators.any (fun i => pyContains (pyLower query) i)

/-- Category test for breadth indicators. -/
def hasBreadthIndicator (query : String) : Bool :=
  breadthIndicators.any (fun i => pyContains (pyLower query) i)

/-- Category test for technical indicators. -/
def hasTechnicalIndicator (query : String) : Bool :=
  technicalIndicators.any (fun i => pyContains (pyLower query) i)

/-- Category test: `len(query.split()) > 10`. -/
def isLongQuery (query : String) : Bool :=
  decide ((pySplitWS query).length > 10)

/-- Embedding of `MultiAgentCoordinator._assess_query_complexity`:
start at base score 2, add 1 per matching category, return `min(5, score)`. -/
def assessQueryComplexity (query : String) : Nat :=
  let score := 2
  let score := if hasComplexityIndicator query then score + 1 else score
  let score := if hasBreadthIndicator query then score + 1 else score
  let score := if hasTechnicalIndicator query then score + 1 else score
  let score := if isLongQuery query then score + 1 else score
  min 5 score

/- ## Task Decomposer (_identify_research_aspects and task creation) -/

/-- Research aspect entry of the fixed catalog in
`_identify_research_aspects`. -/
structure Aspect where
  type_ : String
  focus : String
  description : String
  deriving Repr, DecidableEq

/-- The fixed six-entry aspect catalog `all_aspects`, in source order; the
descriptions interpolate the query exactly as the Python f-strings do. -/
def allAspects (query : String) : List Aspect :=
  [⟨"current_state", "Current State Analysis",
    "Research the current state, recent developments and latest information about: " ++ query⟩,
   ⟨"historical_context", "Historical Context",
    "Investigate the historical background, evolution and timeline related to: " ++ query⟩,
   ⟨"stakeholder_analysis", "Stakeholder Analysis",
    "Analyze key players, stakeholders, companies and organizations involved in: " ++ query⟩,
   ⟨"technical_specs", "Technical Specifications & Architectures",
    "Dive deep into technical specifications, architectures or underlying technologies related to: " ++ query⟩,
   ⟨"data_analysis", "Quantitative & Data Analysis",
    "Perform quantitative analysis, statistics and data-driven insights for: " ++ query⟩,
   ⟨"future_trends", "Future Trends & Implications",
    "Research future outlook, trends, predictions and implications for: " ++ query⟩]

/-- Embedding of `MultiAgentCoordinator._identify_research_aspects`:
n = 2 picks current_state and future_trends, n = 3 adds
historical_context, any other n takes the first n catalog entries. -/
def identifyResearchAspects (query : String) (numAgents : Nat) : List Aspect :=
  let aspects := allAspects query
  if numAgents = 2 then
    [aspects.get ⟨0, by simp [allAspects, aspects]⟩, aspects.get ⟨5, by simp [allAspects, aspects]⟩]
  else if numAgents = 3 then
    [aspects.get ⟨0, by simp [allAspects, aspects]⟩, aspects.get ⟨1, by simp [allAspects, aspects]⟩,
     aspects.get ⟨5, by simp [allAspects, aspects]⟩]
  else
    aspects.take numAgents

/- ## Tool selection and task creation (MultiAgentCoordinator) -/

/-- Tool handles passed to subagents (`get_web_search_tool`, `crawl_tool`,
`python_repl_tool` are external collaborators; only their identity matters
to this core). -/
inductive Tool where
  | webSearch
  | crawlTool
  | pythonReplTool
  deriving Repr, DecidableEq

/-- Embedding of `_select_tools_for_aspect`: base tools are web search and
crawl; four aspect types additionally get the Python REPL. -/
def selectToolsForAspect (aspectType : String) : List Tool :=
  let baseTools := [Tool.webSearch, Tool.crawlTool]
  if aspectType ∈ ["current_state", "future_trends", "data_analysis", "technical_specs"] then
    baseTools ++ [Tool.pythonReplTool]
  else
    baseTools

/-- Embedding of `_get_agent_type_for_aspect`. -/
def getAgentTypeForAspect (aspectType : String) : String :=
  if aspectType ∈ ["future_trends", "data_analysis", "technical_specs"] then "coder"
  else "researcher"

/-- Embedding of the `SubAgentTask` dataclass. -/
structure SubAgentTask where
  agent_id : String
  research_focus : String
  description : String
  tools : List Tool
  agent_type : String := "researcher"
  context_limit : Nat := 50000
  deriving Repr, DecidableEq

/-- Embedding of `MultiAgentCoordinator.create_parallel_research_plan`:
assess complexity, clamp the subagent count to
`min(max_subagents, max(2, complexity))`, select aspects, and build one
`SubAgentTask` per selected aspect. The model-free aspect identification
in the source is deterministic, so no LLM parameter is needed. -/
def createParallelResearchPlan (query : String) (maxSubagents : Nat) : List SubAgentTask :=
  let complexityScore := assessQueryComplexity query
  let optimalSubagents := min maxSubagents (max 2 complexityScore)
  let researchAspects := identifyResearchAspects query optimalSubagents
  (researchAspects.take optimalSubagents).enum.map (fun p =>
    { agent_id := "subagent_" ++ toString p.1 ++ "_" ++ p.2.type_
      research_focus := p.2.focus
      description := p.2.description
      tools := selectToolsForAspect p.2.type_
      agent_type := getAgentTypeForAspect p.2.type_
      context_limit := 50000 })

/- ## Result Compressor (_compress_findings) and source extraction -/

/-- Fixed keyword set of `_compress_findings`. -/
def compressKeywords : List String :=
  ["key", "important", "finding", "result", "conclusion"]

/-- Lines of the raw output that contain one of the keywords
(case-insensitively): `[line for line in lines if any(keyword in line.lower() ...)]`. -/
def keyLinesOf (rawContent : String) : List String :=
  (pySplitNewline rawContent).filter
    (fun line => compressKeywords.any (fun k => pyContains (pyLower line) k))

/-- Embedding of `MultiAgentCoordinator._compress_findings`: join the
first five keyword lines when any exist, otherwise truncate to 1000
characters with a trailing ellipsis marker iff the raw content is longer
than 1000 characters; always prefix with the focus label. -/
def compressFindings (rawContent : String) (focusArea : String) : String :=
  let keyLines := keyLinesOf rawContent
  let compressed :=
    if !keyLines.isEmpty then
      String.intercalate "\n" (keyLines.take 5)
    else
      if rawContent.length > 1000 then rawContent.take 1000 ++ "..." else rawContent
  "**" ++ focusArea ++ "**:\n" ++ compressed

/-- Character class of the URL regex in `_extract_sources`:
`[a-zA-Z]`, `[0-9]`, the ASCII range `$`–`_` (0x24–0x5F, which already
contains `%`, the digits and the uppercase letters), the literals
`! * \ ( ) ,`; the `%[0-9a-fA-F][0-9a-fA-F]` alternative is subsumed by
the `$`–`_` range. -/
def urlCharOk (c : Char) : Bool :=
  c.isAlpha || c.isDigit || (0x24 ≤ c.toNat && c.toNat ≤ 0x5F) ||
    c == '!' || c == '*' || c == '\\' || c == '(' || c == ')' || c == ','

/-- Left-to-right non-overlapping scan of `re.findall` for the URL
pattern `http[s]?://(...)+`: at each position try the (greedy) `https://`
head first, then `http://`, and require at least one class character after
the scheme. `fuel` bounds recursion by the input length; every recursive
call strictly shrinks the character list. -/
def findUrlsAux : Nat → List Char → List String
  | 0, _ => []
  | _ + 1, [] => []
  | fuel + 1, c :: rest =>
    let cs := c :: rest
    if "https://".data.isPrefixOf cs then
      let p := (cs.drop 8).span urlCharOk
      if p.1.isEmpty then findUrlsAux fuel rest
      else ("https://" ++ String.mk p.1) :: findUrlsAux fuel p.2
    else if "http://".data.isPrefixOf cs then
      let p := (cs.drop 7).span urlCharOk
      if p.1.isEmpty then findUrlsAux fuel rest
      else ("http://" ++ String.mk p.1) :: findUrlsAux fuel p.2
    else findUrlsAux fuel rest

/-- Embedding of `MultiAgentCoordinator._extract_sources`:
`list(set(re.findall(pattern, content)))`. Python's `set` iteration order
is unspecified; the embedding deduplicates with `List.dedup` — no claim
below depends on the order of this list, only on its emptiness. -/
def extractSources (content : String) : List String :=
  (findUrlsAux content.data.length content.data).dedup

/- ## Parallel Coordinator (_execute_subagent_task, execute_parallel_research) -/

/-- Embedding of the `SubAgentResult` dataclass. The float
`confidence_score` is modelled as a rational: the source only ever stores
the literals `0.85` and `0.0` and never computes with them. -/
structure SubAgentResult where
  agent_id : String
  research_focus : String
  key_findings : String
  raw_data : String
  confidence_score : ℚ
  sources : List String
  deriving Repr, DecidableEq

/-- Outcome of the external worker invocation `agent.ainvoke(...)` for one
task: either the final message content, or the exception it raised
(represented by the exception's `str(e)`). -/
inductive AgentOutcome where
  | success (content : String)
  | failure (err : String)
  deriving Repr, DecidableEq

/-- True exactly on the `failure` outcome. -/
def AgentOutcome.isFailure : AgentOutcome → Bool
  | .success _ => false
  | .failure _ => true

/-- Embedding of `MultiAgentCoordinator._execute_subagent_task`. The body
of the `try` block (the worker invocation, compression and source
extraction) either succeeds or raises; the `except Exception` handler
converts any raise into a degraded `SubAgentResult` carrying the error
message, so this function is total. Code before the `try`
(message construction and `create_agent`) is an excluded collaborator
assumed reliable (spec §1, §6) and cannot raise in this model. -/
def executeSubagentTask (task : SubAgentTask) (outcome : AgentOutcome) : SubAgentResult :=
  match outcome with
  | .success content =>
      { agent_id := task.agent_id
        research_focus := task.research_focus
        key_findings := compressFindings content task.research_focus
        raw_data := content
        confidence_score := mkRat 85 100
        sources := extractSources content }
  | .failure e =>
      { agent_id := task.agent_id
        research_focus := task.research_focus
        key_findings := "Research failed: " ++ e
        raw_data := ""
        confidence_score := mkRat 0 1
        sources := [] }

/-- Embedding of `MultiAgentCoordinator.execute_parallel_research`.
`asyncio.gather(*coroutines, return_exceptions=True)` yields, per task in
dispatch order, either the coroutine's `SubAgentResult` or the exception
it let escape; since `_execute_subagent_task` catches every exception of
its `try` block, each gathered item is a result (`Except.ok`). The
subsequent `isinstance(result, SubAgentResult)` filter is the
`filterMap`. -/
def executeParallelResearch (tasks : List SubAgentTask)
    (outcomes : List AgentOutcome) : List SubAgentResult :=
  let gathered : List (Except String SubAgentResult) :=
    (tasks.zip outcomes).map (fun p => Except.ok (executeSubagentTask p.1 p.2))
  gathered.filterMap (fun r => match r with | .ok v => some v | .error _ => none)

/- ## parallel_research_node observations -/

/-- Python `"{:.2f}".format(q)` for the nonnegative rationals that occur
as confidence scores (`0.85` and `0.0`): both are exact multiples of a
cent, so the two-decimal rendering is `⌊q·100⌋` split into units and
cents (`q.den` is always positive, so the floor is the integer division
of `q.num * 100` by `q.den`); float rounding never differs from exact
rational arithmetic on these values. -/
def format2f (q : ℚ) : String :=
  let cents := ((q.num * 100) / (q.den : ℤ)).toNat
  let units := cents / 100
  let rem := cents % 100
  toString units ++ "." ++ (if rem < 10 then "0" ++ toString rem else toString rem)

/-- Observation string built by `parallel_research_node` for one subagent
result, reproducing the f-string with its literal indentation. -/
def observationOfResult (r : SubAgentResult) : String :=
  "\n        ## " ++ r.research_focus ++ "\n        \n        " ++
    r.key_findings ++ "\n        \n        **Confidence**: " ++
    format2f r.confidence_score ++ "\n        **Sources**: " ++
    toString r.sources.length ++ " sources\n        "

/-- Observations handed to the reporter by `parallel_research_node` for a
plan titled `query`: the node calls
`create_parallel_research_plan(query, max_subagents=4)`, executes the
tasks in parallel, and maps each result to one observation. -/
def parallelResearchObservations (query : String)
    (outcomes : List AgentOutcome) : List String :=
  let tasks := createParallelResearchPlan query 4
  (executeParallelResearch tasks outcomes).map observationOfResult

/- ## Plan model (src/prompts/multi_agent_planner_model.py) -/

/-- Embedding of the `PlanningMode` string enum. -/
inductive PlanningMode where
  | parallelMultiAgent
  | sequentialSteps
  deriving Repr, DecidableEq

/-- Modelled from the spec: `StepType` of `src/prompts/planner_model.py`
(that file is not under src/; spec §3 fixes `step_type ∈ {RESEARCH, PROCESSING}`). -/
inductive StepType where
  | research
  | processing
  deriving Repr, DecidableEq

/-- Modelled from the spec: `Step` of `src/prompts/planner_model.py`
(that file is not under src/; spec §3 gives the fields
`{ need_search, title, description, step_type, execution_res: optional string }`).
`step_type` is optional because `continue_to_running_research_team` guards
it with a truthiness check before comparing it. -/
structure Step where
  need_search : Bool
  title : String
  description : String
  step_type : Option StepType
  execution_res : Option String := none
  deriving Repr, DecidableEq

/-- Embedding of the `SubAgentStream` pydantic model (fields that carry
data; pydantic validation is out of scope). -/
structure SubAgentStream where
  stream_id : String
  research_focus : String
  description : String
  success_criteria : String
  tool_requirements : List String := []
  estimated_calls : Nat := 10
  context_limit : Nat := 50000
  status : String := "pending"
  findings : Option String := none
  confidence_score : Option ℚ := none
  deriving Repr, DecidableEq

/-- Embedding of the `UnifiedResearchPlan` pydantic model. Optional
fields keep their Python `None` default so that truthiness checks in the
router and planner can be modelled exactly. -/
structure UnifiedResearchPlan where
  locale : String
  planning_mode : PlanningMode
  thought : String
  title : String
  subagent_streams : Option (List SubAgentStream) := none
  synthesis_strategy : Option String := none
  confidence_target : Option ℚ := none
  has_enough_context : Option Bool := none
  steps : Option (List Step) := none
  deriving Repr, DecidableEq

/-- Modelled from the spec: the legacy `Plan` of
`src/prompts/planner_model.py` (not under src/), as used by the legacy
branch of `continue_to_running_research_team`: an object with a list of
typed steps (spec §3 SequentialPlan). -/
structure LegacyPlan where
  title : String
  has_enough_context : Bool := false
  steps : List Step := []
  deriving Repr, DecidableEq

/-- The `current_plan` slot of the workflow state: absent, an
intermediate string, a unified plan, or a legacy plan. -/
inductive CurrentPlan where
  | absent
  | str (s : String)
  | unified (p : UnifiedResearchPlan)
  | legacy (p : LegacyPlan)
  deriving Repr, DecidableEq

/- ## Workflow Router (continue_to_running_research_team, builder.py) -/

/-- Python `for step in steps: if not step.execution_res: break` followed
by use of `step`: the first step with falsy `execution_res`, or — when no
break fires — the last element of the (nonempty) list. -/
def loopSelectedStep (steps : List Step) : Option Step :=
  match steps.find? (fun s => !pyTruthyOptStr s.execution_res) with
  | some s => some s
  | none => steps.getLast?

/-- Routing on the selected step's type, mirroring the two `if` tests and
the trailing `return "planner"`. -/
def routeForStep (st : Step) : String :=
  match st.step_type with
  | some .research => "researcher"
  | some .processing => "coder"
  | none => "planner"

/-- Embedding of `continue_to_running_research_team` in
src/graph/builder.py: string plans re-plan; unified parallel plans go to
parallel_research; unified sequential plans route to the first incomplete
step's worker; legacy plans use the same scan; everything else re-plans. -/
def continueToRunningResearchTeam (currentPlan : CurrentPlan) : String :=
  match currentPlan with
  | .str _ => "planner"
  | .unified p =>
    match p.planning_mode with
    | .parallelMultiAgent => "parallel_research"
    | .sequentialSteps =>
      if !pyTruthyOptList p.steps then "planner"
      else
        let steps := p.steps.getD []
        if steps.all (fun s => pyTruthyOptStr s.execution_res) then "planner"
        else
          match loopSelectedStep steps with
          | some st => routeForStep st
          | none => "planner"
  | .legacy p =>
    if !p.steps.isEmpty then
      if p.steps.all (fun s => pyTruthyOptStr s.execution_res) then "planner"
      else
        match loopSelectedStep p.steps with
        | some st => routeForStep st
        | none => "planner"
    else "planner"
  | .absent => "planner"

/- ## Planner node (planner_node, src/graph/nodes.py) -/

/-- Result of handling the planner LLM's response in `planner_node`:
`json.loads(repair_json_output(full_response))` either raises
`JSONDecodeError` — the only exception type the node catches — or yields
a JSON payload on which `UnifiedResearchPlan.model_validate` is called
outside the try/except: it either raises a pydantic ValidationError
(carried here as the exception's message) or produces a validated plan. -/
inductive PlannerParse where
  | jsonDecodeError
  | validationError (msg : String)
  | parsed (plan : UnifiedResearchPlan)
  deriving Repr, DecidableEq

/-- Embedding of the routing logic of `planner_node` as a fallible
computation (`Except.error` models an exception escaping the node). The
iteration-budget guard fires before the LLM is invoked, so before any
parse outcome exists; a caught JSON decode failure routes to the reporter
when at least one iteration has happened and ends the run otherwise; a
JSON-valid but schema-invalid payload makes the `model_validate` call —
which sits outside the try/except — raise an uncaught ValidationError
that escapes the node; a validated plan goes to the reporter when
`has_enough_context` is truthy and to parallel_research otherwise,
regardless of its planning mode. -/
def plannerNode (planIterations maxPlanIterations : Nat)
    (parse : PlannerParse) : Except String String :=
  if planIterations ≥ maxPlanIterations then .ok "reporter"
  else
    match parse with
    | .jsonDecodeError =>
      .ok (if planIterations > 0 then "reporter" else "__end__")
    | .validationError msg => .error msg
    | .parsed plan =>
      .ok (if pyTruthyOptBool plan.has_enough_context then "reporter"
           else "parallel_research")

/- ## Human feedback node (human_feedback_node, src/graph/nodes.py) -/

/-- Embedding of `human_feedback_node`. An `Except.error` value models the
`raise TypeError(...)`. When the plan is not auto-accepted, the interrupt
feedback is examined: a truthy string whose uppercase starts with
"[EDIT_PLAN]" routes back to the planner; a truthy string whose uppercase
starts with "[ACCEPTED]" falls through to plan acceptance; anything else
raises. Acceptance parses the current plan string
(`planParse = none` models the `json.JSONDecodeError` path; note the
iteration counter is incremented before the parse, so the handler
compares `planIterations + 1 > 1`) and routes on `has_enough_context`. -/
def humanFeedbackNode (autoAcceptedPlan : Bool) (feedback : String)
    (planParse : Option UnifiedResearchPlan) (planIterations : Nat) :
    Except String String :=
  let acceptedPath : Except String String :=
    match planParse with
    | some plan =>
      .ok (if pyTruthyOptBool plan.has_enough_context then "reporter"
           else "parallel_research")
    | none => .ok (if planIterations + 1 > 1 then "reporter" else "__end__")
  if !autoAcceptedPlan then
    if !feedback.isEmpty && pyStartsWith (pyUpper feedback) "[EDIT_PLAN]" then
      .ok "planner"
    else if !feedback.isEmpty && pyStartsWith (pyUpper feedback) "[ACCEPTED]" then
      acceptedPath
    else
      .error ("Interrupt value of " ++ feedback ++ " is not supported.")
  else acceptedPath

/- ## Theorems -/

/-- C4: for every goal string, the complexity assessor is a deterministic
pure function (a Lean function by construction) whose value lies in
[2, 5] and equals the base score 2 plus one point per matching lexical
category (each category contributing at most +1 via its Boolean
indicator), clamped to 5. -/
theorem c4_assess_bounds_and_category_structure (query : String) :
    2 ≤ assessQueryComplexity query ∧ assessQueryComplexity query ≤ 5 ∧
    assessQueryComplexity query =
      min 5 (2 + (hasComplexityIndicator query).toNat +
        (hasBreadthIndicator query).toNat + (hasTechnicalIndicator query).toNat +
        (isLongQuery query).toNat) := by
  unfold assessQueryComplexity
  cases hasComplexityIndicator query <;> cases hasBreadthIndicator query <;>
    cases hasTechnicalIndicator query <;> cases isLongQuery query <;> exact ⟨by decide, by decide, rfl⟩

/-- C5: for n in {2,3,4,5} the decomposer returns exactly n aspects;
n = 2 selects current_state and future_trends in that order, n = 3 adds
historical_context, and n ≥ 4 takes the first n catalog entries in
catalog order. -/
theorem c5_decompose_count_and_selection (query : String) (n : Nat)
    (hn : n = 2 ∨ n = 3 ∨ n = 4 ∨ n = 5) :
    (identifyResearchAspects query n).length = n ∧
    (n = 2 → (identifyResearchAspects query n).map Aspect.type_ =
      ["current_state", "future_trends"]) ∧
    (n = 3 → (identifyResearchAspects query n).map Aspect.type_ =
      ["current_state", "historical_context", "future_trends"]) ∧
    (4 ≤ n → identifyResearchAspects query n = (allAspects query).take n) := by
  rcases hn with h | h | h | h <;> subst h
  · exact ⟨rfl, fun _ => rfl, fun h => absurd h (by decide), fun h => absurd h (by decide)⟩
  · exact ⟨rfl, fun h => absurd h (by decide), fun _ => rfl, fun h => absurd h (by decide)⟩
  · exact ⟨rfl, fun h => absurd h (by decide), fun h => absurd h (by decide), fun _ => rfl⟩
  · exact ⟨rfl, fun h => absurd h (by decide), fun h => absurd h (by decide), fun _ => rfl⟩

/-- C5 witness: the theorem applied at n = 2 with a concrete goal. -/
theorem c5_decompose_count_and_selection_witness :
    ((2 : Nat) = 2 ∨ (2 : Nat) = 3 ∨ (2 : Nat) = 4 ∨ (2 : Nat) = 5) ∧
    (identifyResearchAspects "What is AI" 2).length = 2 ∧
    (identifyResearchAspects "What is AI" 2).map Aspect.type_ =
      ["current_state", "future_trends"] :=
  ⟨Or.inl rfl,
   (c5_decompose_count_and_selection "What is AI" 2 (Or.inl rfl)).1,
   (c5_decompose_count_and_selection "What is AI" 2 (Or.inl rfl)).2.1 rfl⟩

/-- C9: the compressor always prefixes the focus label and then either the
first five keyword-matching lines joined by newlines (when any line
matches), or the raw output truncated to 1000 characters with an ellipsis
marker appended iff truncation occurred; on empty input it returns (never
throwing — the function is total) exactly the focus label prefix. -/
theorem c9_compress_policy (raw focusArea : String) :
    compressFindings raw focusArea =
      "**" ++ focusArea ++ "**:\n" ++
        (if !(keyLinesOf raw).isEmpty then
          String.intercalate "\n" ((keyLinesOf raw).take 5)
         else if raw.length > 1000 then raw.take 1000 ++ "..." else raw) ∧
    compressFindings "" focusArea = "**" ++ focusArea ++ "**:\n" ++ "" := by
  exact ⟨rfl, rfl⟩

/-- C10: every dispatched task's single result carries the task's
agent_id and research_focus unchanged, and a caught failure yields empty
raw data, an empty source list, confidence exactly 0, and the error
message embedded in key_findings. -/
theorem c10_result_identity_and_degraded_shape (task : SubAgentTask)
    (outcome : AgentOutcome) :
    (executeSubagentTask task outcome).agent_id = task.agent_id ∧
    (executeSubagentTask task outcome).research_focus = task.research_focus ∧
    (∀ e, outcome = .failure e →
      (executeSubagentTask task outcome).raw_data = "" ∧
      (executeSubagentTask task outcome).sources = [] ∧
      (executeSubagentTask task outcome).confidence_score = 0 ∧
      (executeSubagentTask task outcome).key_findings = "Research failed: " ++ e) := by
  cases outcome with
  | success content => exact ⟨rfl, rfl, fun e h => by cases h⟩
  | failure err =>
    refine ⟨rfl, rfl, fun e h => ?_⟩
    cases h
    exact ⟨rfl, rfl, by norm_num [executeSubagentTask], rfl⟩

/-- C10 witness: the theorem applied to a concrete task and a concrete
caught failure. -/
theorem c10_result_identity_and_degraded_shape_witness :
    (executeSubagentTask
        { agent_id := "subagent_0_current_state",
          research_focus := "Current State Analysis",
          description := "d", tools := [Tool.webSearch] }
        (.failure "boom")).raw_data = "" ∧
    (executeSubagentTask
        { agent_id := "subagent_0_current_state",
          research_focus := "Current State Analysis",
          description := "d", tools := [Tool.webSearch] }
        (.failure "boom")).confidence_score = 0 :=
  ⟨((c10_result_identity_and_degraded_shape _ _).2.2 "boom" rfl).1,
   ((c10_result_identity_and_degraded_shape _ _).2.2 "boom" rfl).2.2.1⟩

/- ### Concrete plans used by witnesses and counterexamples -/

/-- Sequential-mode plan lacking context, with one pending research step. -/
def exSequentialNoContextPlan : UnifiedResearchPlan :=
  { locale := "en-US", planning_mode := .sequentialSteps, thought := "reasoning",
    title := "Research", has_enough_context := some false,
    steps := some [{ need_search := true, title := "s1", description := "d1",
                     step_type := some .research }] }

/-- Sequential-mode plan that already has enough context. -/
def exEnoughContextPlan : UnifiedResearchPlan :=
  { locale := "en-US", planning_mode := .sequentialSteps, thought := "reasoning",
    title := "Research", has_enough_context := some true }

/-- C6: on a sequential unified plan whose steps are not all complete, the
router scans the declared step order and routes to the worker of the first
step whose execution_res is falsy (`find?` returns exactly that first
step): researcher for RESEARCH, coder for PROCESSING. -/
theorem c6_sequential_router_first_incomplete
    (p : UnifiedResearchPlan) (steps : List Step) (st : Step)
    (hmode : p.planning_mode = .sequentialSteps)
    (hsteps : p.steps = some steps)
    (hfind : steps.find? (fun s => !pyTruthyOptStr s.execution_res) = some st) :
    (st.step_type = some .research →
      continueToRunningResearchTeam (.unified p) = "researcher") ∧
    (st.step_type = some .processing →
      continueToRunningResearchTeam (.unified p) = "coder") := by
  have hmem : st ∈ steps := List.mem_of_find?_eq_some hfind
  have hpred := List.find?_some hfind
  have hallfalse : steps.all (fun s => pyTruthyOptStr s.execution_res) = false := by
    rcases hall : steps.all (fun s => pyTruthyOptStr s.execution_res) with _ | _
    · rfl
    · have := List.all_eq_true.mp hall st hmem
      rw [this] at hpred
      cases hpred
  have hroute : continueToRunningResearchTeam (.unified p) = routeForStep st := by
    cases steps with
    | nil => simp [List.find?] at hfind
    | cons a l =>
      simp [continueToRunningResearchTeam, hmode, hsteps, pyTruthyOptList,
        hallfalse, loopSelectedStep, hfind]
  exact ⟨fun h => by rw [hroute]; simp [routeForStep, h],
         fun h => by rw [hroute]; simp [routeForStep, h]⟩

/-- C6 witness: the theorem applied to the concrete step list
[RESEARCH(done), PROCESSING(pending), RESEARCH(pending)], where the router
selects the PROCESSING step and routes to the coder. -/
theorem c6_sequential_router_first_incomplete_witness :
    continueToRunningResearchTeam (.unified
      { locale := "en-US", planning_mode := .sequentialSteps, thought := "t",
        title := "T", has_enough_context := some false,
        steps := some
          [{ need_search := true, title := "s1", description := "d1",
             step_type := some .research, execution_res := some "done" },
           { need_search := false, title := "s2", description := "d2",
             step_type := some .processing },
           { need_search := true, title := "s3", description := "d3",
             step_type := some .research }] }) = "coder" :=
  (c6_sequential_router_first_incomplete _
    [{ need_search := true, title := "s1", description := "d1",
       step_type := some .research, execution_res := some "done" },
     { need_search := false, title := "s2", description := "d2",
       step_type := some .processing },
     { need_search := true, title := "s3", description := "d3",
       step_type := some .research }]
    { need_search := false, title := "s2", description := "d2",
      step_type := some .processing }
    rfl rfl (by decide)).2 rfl

/-- C7 (code bug): the budget guard and the caught JSON-decode branch do
route as claimed (last three conjuncts), but a planner output that is
valid JSON and fails plan validation — a plan parse failure in the
claim's sense — raises the uncaught ValidationError out of the node at
iteration 0 instead of routing to end: the run crashes and no goto target
is produced at all (second conjunct). -/
theorem c7_schema_invalid_payload_crashes :
    plannerNode 0 3
        (.validationError "1 validation error for UnifiedResearchPlan") =
      .error "1 validation error for UnifiedResearchPlan" ∧
    (∀ target : String,
      plannerNode 0 3
          (.validationError "1 validation error for UnifiedResearchPlan") ≠
        .ok target) ∧
    plannerNode 0 3 .jsonDecodeError = .ok "__end__" ∧
    plannerNode 1 3 .jsonDecodeError = .ok "reporter" ∧
    plannerNode 3 2
        (.validationError "1 validation error for UnifiedResearchPlan") =
      .ok "reporter" :=
  ⟨rfl, fun _ h => Except.noConfusion h, rfl, rfl, rfl⟩

/-- C2 counterexample: a sequential-mode plan lacking enough context,
parsed under budget, is routed by the planner to parallel_research — not
to human_feedback and not to a sequential worker, contradicting the
claimed sequential branch. -/
theorem c2_counterexample :
    exSequentialNoContextPlan.planning_mode = PlanningMode.sequentialSteps ∧
    pyTruthyOptBool exSequentialNoContextPlan.has_enough_context = false ∧
    plannerNode 0 3 (.parsed exSequentialNoContextPlan) = .ok "parallel_research" ∧
    plannerNode 0 3 (.parsed exSequentialNoContextPlan) ≠ .ok "human_feedback" ∧
    plannerNode 0 3 (.parsed exSequentialNoContextPlan) ≠ .ok "researcher" ∧
    plannerNode 0 3 (.parsed exSequentialNoContextPlan) ≠ .ok "coder" := by
  refine ⟨rfl, rfl, rfl, ?_, ?_, ?_⟩ <;>
    exact fun h => by injection h with h; exact absurd h (by decide)

/-- C2 (amended): after a successful plan parse within the iteration
budget, the planner routes purely on context sufficiency — truthy
has_enough_context goes to the reporter, anything else goes to
parallel_research regardless of the plan's mode. -/
theorem c2_planner_routes_on_context_only (iters maxIters : Nat)
    (plan : UnifiedResearchPlan) (hbudget : iters < maxIters) :
    (pyTruthyOptBool plan.has_enough_context = true →
      plannerNode iters maxIters (.parsed plan) = .ok "reporter") ∧
    (pyTruthyOptBool plan.has_enough_context = false →
      plannerNode iters maxIters (.parsed plan) = .ok "parallel_research") := by
  unfold plannerNode
  rw [if_neg (Nat.not_le.mpr hbudget)]
  exact ⟨fun h => by simp [h], fun h => by simp [h]⟩

/-- C2 witness: the amended theorem applied to a concrete
context-sufficient plan and a concrete context-lacking plan. -/
theorem c2_planner_routes_on_context_only_witness :
    plannerNode 0 3 (.parsed exEnoughContextPlan) = .ok "reporter" ∧
    plannerNode 0 3 (.parsed exSequentialNoContextPlan) = .ok "parallel_research" :=
  ⟨(c2_planner_routes_on_context_only 0 3 exEnoughContextPlan (by decide)).1 rfl,
   (c2_planner_routes_on_context_only 0 3 exSequentialNoContextPlan (by decide)).2 rfl⟩

/-- C8: in the human-feedback stage (plan not auto-accepted), a feedback
token that is neither an edit request nor an acceptance raises the fatal
TypeError with no recovery; an edit-request token routes back to the
planner; an acceptance token makes the node behave exactly as if the plan
had been accepted, proceeding to plan validation and routing. -/
theorem c8_feedback_token_protocol (feedback : String)
    (planParse : Option UnifiedResearchPlan) (iters : Nat) :
    ((!feedback.isEmpty && pyStartsWith (pyUpper feedback) "[EDIT_PLAN]") = false →
     (!feedback.isEmpty && pyStartsWith (pyUpper feedback) "[ACCEPTED]") = false →
      humanFeedbackNode false feedback planParse iters =
        .error ("Interrupt value of " ++ feedback ++ " is not supported.")) ∧
    ((!feedback.isEmpty && pyStartsWith (pyUpper feedback) "[EDIT_PLAN]") = true →
      humanFeedbackNode false feedback planParse iters = .ok "planner") ∧
    ((!feedback.isEmpty && pyStartsWith (pyUpper feedback) "[EDIT_PLAN]") = false →
     (!feedback.isEmpty && pyStartsWith (pyUpper feedback) "[ACCEPTED]") = true →
      humanFeedbackNode false feedback planParse iters =
        humanFeedbackNode true feedback planParse iters) := by
  unfold humanFeedbackNode
  refine ⟨fun h1 h2 => ?_, fun h1 => ?_, fun h1 h2 => ?_⟩
  · simp [h1, h2]
  · simp [h1]
  · simp [h1, h2]

/-- C8 witness: the theorem applied to a concrete unsupported token, a
concrete edit-request token, and a concrete acceptance token. -/
theorem c8_feedback_token_protocol_witness :
    humanFeedbackNode false "reject this" none 0 =
      .error ("Interrupt value of " ++ "reject this" ++ " is not supported.") ∧
    humanFeedbackNode false "[Edit_Plan] tweak step 2" none 0 = .ok "planner" ∧
    humanFeedbackNode false "[accepted] looks good" (some exSequentialNoContextPlan) 0 =
      humanFeedbackNode true "[accepted] looks good" (some exSequentialNoContextPlan) 0 :=
  ⟨(c8_feedback_token_protocol "reject this" none 0).1 (by decide) (by decide),
   (c8_feedback_token_protocol "[Edit_Plan] tweak step 2" none 0).2.1 (by decide),
   (c8_feedback_token_protocol "[accepted] looks good"
      (some exSequentialNoContextPlan) 0).2.2 (by decide) (by decide)⟩

/- ### Parallel coordinator theorems -/

/-- Coordinator pipeline lemma: the gather-then-filter of
`execute_parallel_research` equals pointwise task execution, because every
exception of a task's `try` block is caught inside
`_execute_subagent_task`, so no gathered item is an escaped exception and
the `isinstance` filter keeps everything. -/
theorem executeParallelResearch_eq_map (tasks : List SubAgentTask)
    (outcomes : List AgentOutcome) :
    executeParallelResearch tasks outcomes =
      (tasks.zip outcomes).map (fun p => executeSubagentTask p.1 p.2) := by
  show ((tasks.zip outcomes).map
      (fun p => (Except.ok (executeSubagentTask p.1 p.2) : Except String SubAgentResult))).filterMap
      (fun r => match r with | .ok v => some v | .error _ => none) = _
  generalize tasks.zip outcomes = l
  induction l with
  | nil => rfl
  | cons a t ih => simp [List.filterMap_cons, ih]

/-- Task used by the C1 counterexample and witness. -/
def c1FailTask : SubAgentTask :=
  { agent_id := "subagent_0_current_state",
    research_focus := "Current State Analysis",
    description := "d0", tools := [Tool.webSearch, Tool.crawlTool] }

/-- Second task used by the C1 witness. -/
def c1OtherTask : SubAgentTask :=
  { agent_id := "subagent_1_historical_context",
    research_focus := "Historical Context",
    description := "d1", tools := [Tool.webSearch, Tool.crawlTool] }

/-- C1 counterexample: a caught task failure is converted into a degraded
TaskResult whose findings field is NOT empty — it carries the error
message ("Research failed: ..."), so the claim's "empty findings" is false
at this input (the raw data and source list are what is empty). -/
theorem c1_counterexample :
    (executeParallelResearch [c1FailTask] [.failure "tool crashed"]).map
        (fun r => r.key_findings) = ["Research failed: tool crashed"] ∧
    "Research failed: tool crashed" ≠ "" := by
  exact ⟨rfl, by decide⟩

/-- C1 (amended): for n dispatched tasks with n outcomes of which any
subset raise, execute returns exactly n TaskResults, never fewer; each
raising task is caught locally and converted in place into a degraded
TaskResult with confidence 0.0, empty raw data and empty source list, the
error message embedded in its findings field; and each non-raising
sibling's result is likewise present in place, so one task's failure never
aborts or drops a sibling task's result. -/
theorem c1_execute_exactly_n_with_degraded_in_place
    (tasks : List SubAgentTask) (outcomes : List AgentOutcome)
    (hlen : outcomes.length = tasks.length) :
    (executeParallelResearch tasks outcomes).length = tasks.length ∧
    (∀ (i : Nat) (t : SubAgentTask) (e : String),
      tasks[i]? = some t → outcomes[i]? = some (AgentOutcome.failure e) →
      (executeParallelResearch tasks outcomes)[i]? =
        some { agent_id := t.agent_id, research_focus := t.research_focus,
               key_findings := "Research failed: " ++ e, raw_data := "",
               confidence_score := mkRat 0 1, sources := [] }) ∧
    (∀ (i : Nat) (t : SubAgentTask) (c : String),
      tasks[i]? = some t → outcomes[i]? = some (AgentOutcome.success c) →
      (executeParallelResearch tasks outcomes)[i]? =
        some (executeSubagentTask t (AgentOutcome.success c))) := by
  rw [executeParallelResearch_eq_map]
  refine ⟨?_, ?_, ?_⟩
  · rw [List.length_map, List.length_zip, hlen, Nat.min_self]
  · intro i t e ht ho
    have hz : (tasks.zip outcomes)[i]? = some (t, .failure e) :=
      List.getElem?_zip_eq_some.mpr ⟨ht, ho⟩
    rw [List.getElem?_map, hz]
    rfl
  · intro i t c ht ho
    have hz : (tasks.zip outcomes)[i]? = some (t, .success c) :=
      List.getElem?_zip_eq_some.mpr ⟨ht, ho⟩
    rw [List.getElem?_map, hz]
    rfl

/-- C1 witness: the amended theorem applied to two concrete tasks of which
the first raises: both results are present, the first degraded, the
second a success carried through unchanged. -/
theorem c1_execute_exactly_n_with_degraded_in_place_witness :
    (executeParallelResearch [c1FailTask, c1OtherTask]
      [.failure "boom", .success "One key result was found"]).length = 2 ∧
    (executeParallelResearch [c1FailTask, c1OtherTask]
      [.failure "boom", .success "One key result was found"])[0]? =
      some { agent_id := c1FailTask.agent_id,
             research_focus := c1FailTask.research_focus,
             key_findings := "Research failed: " ++ "boom", raw_data := "",
             confidence_score := mkRat 0 1, sources := [] } ∧
    (executeParallelResearch [c1FailTask, c1OtherTask]
      [.failure "boom", .success "One key result was found"])[1]? =
      some (executeSubagentTask c1OtherTask (.success "One key result was found")) :=
  ⟨(c1_execute_exactly_n_with_degraded_in_place [c1FailTask, c1OtherTask]
      [.failure "boom", .success "One key result was found"] rfl).1,
   (c1_execute_exactly_n_with_degraded_in_place [c1FailTask, c1OtherTask]
      [.failure "boom", .success "One key result was found"] rfl).2.1
      0 c1FailTask "boom" rfl rfl,
   (c1_execute_exactly_n_with_degraded_in_place [c1FailTask, c1OtherTask]
      [.failure "boom", .success "One key result was found"] rfl).2.2
      1 c1OtherTask "One key result was found" rfl rfl⟩

/- ### The quantum-computing scenario (C3) -/

/-- The scenario goal string from the spec. -/
def quantumQuery : String :=
  "Compare and evaluate the current landscape of quantum computing technologies and their detailed impact on cybersecurity"

/-- Worker outcomes for the scenario's four dispatched tasks, with the
induced tool failure on the third stream. -/
def c3Outcomes : List AgentOutcome :=
  [.success "Finding one: current state mapped",
   .success "Finding two: history traced",
   .failure "induced tool failure",
   .success "Finding four: specs analyzed"]

/-- Worker outcomes as the claim imagines them — five streams with the
failure on the third; the pipeline only ever dispatches four tasks, so the
fifth outcome is never consumed. -/
def c3OutcomesFive : List AgentOutcome :=
  [.success "Finding one: current state mapped",
   .success "Finding two: history traced",
   .failure "induced tool failure",
   .success "Finding four: specs analyzed",
   .success "Finding five: data analyzed"]

/-- C3 counterexample: the goal does score complexity 5, but the pipeline
node calls the decomposer with max_subagents = 4, so it yields 4 streams,
4 TaskResults and 4 observations — not the claimed 5 — even when five
worker outcomes are available. -/
theorem c3_counterexample :
    assessQueryComplexity quantumQuery = 5 ∧
    (createParallelResearchPlan quantumQuery 4).length = 4 ∧
    (createParallelResearchPlan quantumQuery 4).length ≠ 5 ∧
    (executeParallelResearch (createParallelResearchPlan quantumQuery 4)
      c3OutcomesFive).length ≠ 5 ∧
    (parallelResearchObservations quantumQuery c3OutcomesFive).length ≠ 5 := by
  decide

/-- C3 (amended): for the quantum-computing goal the pipeline computes
complexity score 5, but `parallel_research_node` caps subagents at 4, so
decomposition yields 4 streams — the first four catalog entries in
catalog order; parallel execution with one induced tool failure on stream
3 still yields 4 TaskResults (3 at confidence 0.85, 1 at confidence 0.0,
the failed one in third position), and the reporter receives 4
observations. -/
theorem c3_scenario_with_subagent_cap :
    assessQueryComplexity quantumQuery = 5 ∧
    (createParallelResearchPlan quantumQuery 4).map (fun t => t.agent_id) =
      ["subagent_0_current_state", "subagent_1_historical_context",
       "subagent_2_stakeholder_analysis", "subagent_3_technical_specs"] ∧
    (executeParallelResearch (createParallelResearchPlan quantumQuery 4)
      c3Outcomes).length = 4 ∧
    ((executeParallelResearch (createParallelResearchPlan quantumQuery 4)
      c3Outcomes).filter (fun r => r.confidence_score == mkRat 85 100)).length = 3 ∧
    ((executeParallelResearch (createParallelResearchPlan quantumQuery 4)
      c3Outcomes).filter (fun r => r.confidence_score == mkRat 0 1)).length = 1 ∧
    ((executeParallelResearch (createParallelResearchPlan quantumQuery 4)
      c3Outcomes)[2]?).map (fun r => r.confidence_score) = some (mkRat 0 1) ∧
    (parallelResearchObservations quantumQuery c3Outcomes).length = 4 := by
  decide

end DeerFlow
